import Mathlib

/-!
Shallow embedding of the legacy logging bridge in `twisted/python/log.py`:
the safe formatter `_safeFormat`, the text extractor `textFromEventDict`,
the normalization-and-dispatch function `publishToNewObserver`, the
observer registry of `LogPublisher`, and `callWithLogger`.

Events are modelled as ordered association lists from string keys to
Python-like values; Python exceptions are modelled with an explicit
exception type and `Except`-valued functions.
-/

namespace TwistedLog

instance {ε α : Type} [DecidableEq ε] [DecidableEq α] : DecidableEq (Except ε α) := fun x y =>
  match x, y with
  | .ok a, .ok b =>
      if h : a = b then .isTrue (by rw [h]) else .isFalse (by simp [h])
  | .ok _, .error _ => .isFalse (by simp)
  | .error _, .ok _ => .isFalse (by simp)
  | .error e, .error e2 =>
      if h : e = e2 then .isTrue (by rw [h]) else .isFalse (by simp [h])

/-- Python exceptions that the embedded code can raise or catch.
`keyboardInterrupt` models `KeyboardInterrupt`, the deliberate interrupt;
the remaining constructors model ordinary exceptions. -/
inductive Exc where
  | keyboardInterrupt
  | keyError (k : String)
  | typeError
  | valueError
  | other (s : String)
deriving DecidableEq, Repr

/-- The four new-style severity levels that the bridge produces
(`twisted.python.logger.LogLevel`): `debug`, `info`, `warn`, `error`. -/
inductive NewLogLevel where
  | debug
  | info
  | warn
  | error
deriving DecidableEq, Repr

/-- Modelled from the spec: a captured error/traceback object
(`twisted.python.failure.Failure`, outside this module); all the bridge
reads from it is its rendered traceback (`getTraceback`). -/
structure Failure where
  traceback : String
deriving DecidableEq, Repr

def Failure.getTraceback (f : Failure) : String := f.traceback

/-- A message fragment: an element of the `message` tuple of an event.
`fBad placeholder exc` models an object whose stringification raises
`exc`; `placeholder` is the representation the safe stringifier
substitutes for it. -/
inductive Frag where
  | fStr (s : String)
  | fInt (n : Int)
  | fBad (placeholder : String) (exc : Exc)
deriving DecidableEq, Repr

/-- A Python value stored in an event dictionary. `vBad placeholder exc`
models an object whose `str`/`repr` raises `exc`. -/
inductive Value where
  | vStr (s : String)
  | vInt (n : Int)
  | vLevel (l : NewLogLevel)
  | vFailure (f : Failure)
  | vList (frags : List Frag)
  | vNone
  | vBad (placeholder : String) (exc : Exc)
deriving DecidableEq, Repr

/-- Python truthiness of a value (`bool(v)`). -/
def Value.truthy : Value → Bool
  | .vStr s => !(s = "")
  | .vInt n => !(n = 0)
  | .vLevel _ => true
  | .vFailure _ => true
  | .vList frags => !frags.isEmpty
  | .vNone => false
  | .vBad _ _ => true

/-- An event dictionary: an ordered mapping from string keys to values,
modelled as an association list without duplicate-key insertion
(`set` replaces in place, as a Python `dict` does). -/
abbrev Event := List (String × Value)

/-- `d[k]` as a total lookup: the value at the first matching key. -/
def Event.lookup : Event → String → Option Value
  | [], _ => none
  | (k0, v) :: rest, k => if k0 = k then some v else Event.lookup rest k

/-- `k in d`. -/
def Event.contains (e : Event) (k : String) : Bool :=
  (e.lookup k).isSome

/-- `d[k] = v`: replace the value at `k` in place if present, else append. -/
def Event.set : Event → String → Value → Event
  | [], k, v => [(k, v)]
  | (k0, v0) :: rest, k, v =>
      if k0 = k then (k0, v) :: rest else (k0, v0) :: Event.set rest k v

/-- Modelled from the spec: `reflect.safe_str` (outside this module) —
coerce a fragment to text, catching stringification failures and
substituting a placeholder representation rather than propagating. -/
def safe_str : Frag → String
  | .fStr s => s
  | .fInt n => toString n
  | .fBad placeholder _ => placeholder

/-- Modelled from the spec: Python `repr` of a fragment; raises when the
object has a broken `repr`. -/
def Frag.pyRepr : Frag → Except Exc String
  | .fStr s => .ok ("\x27" ++ s ++ "\x27")
  | .fInt n => .ok (toString n)
  | .fBad _ exc => .error exc

/-- Modelled from the spec: Python `repr` of a tuple of fragments; calls
`repr` on every element and raises when one of them does. -/
def reprFrags : List Frag → Except Exc String
  | [] => .ok ""
  | [f] => f.pyRepr
  | f :: rest =>
      match f.pyRepr with
      | .error e => .error e
      | .ok r =>
          match reprFrags rest with
          | .error e => .error e
          | .ok t => .ok (r ++ ", " ++ t)

def NewLogLevel.pyStr : NewLogLevel → String
  | .debug => "LogLevel.debug"
  | .info => "LogLevel.info"
  | .warn => "LogLevel.warn"
  | .error => "LogLevel.error"

/-- Modelled from the spec: Python `repr(v)`; raises when the object has a
broken representation. -/
def Value.pyRepr : Value → Except Exc String
  | .vStr s => .ok ("\x27" ++ s ++ "\x27")
  | .vInt n => .ok (toString n)
  | .vLevel l => .ok ("<" ++ l.pyStr ++ ">")
  | .vFailure f => .ok ("<Failure " ++ f.traceback ++ ">")
  | .vList frags => (reprFrags frags).map (fun s => "(" ++ s ++ ")")
  | .vNone => .ok "None"
  | .vBad _ exc => .error exc

/-- Modelled from the spec: Python `str(v)`; raises when the object has a
broken stringification. -/
def Value.pyStr : Value → Except Exc String
  | .vStr s => .ok s
  | .vInt n => .ok (toString n)
  | .vLevel l => .ok l.pyStr
  | .vFailure f => .ok ("<Failure " ++ f.traceback ++ ">")
  | .vList frags => (reprFrags frags).map (fun s => "(" ++ s ++ ")")
  | .vNone => .ok "None"
  | .vBad _ exc => .error exc

/-- Modelled from the spec: Python `str` of an event dictionary (used by
the `%s` of the first fallback diagnostic); renders every entry with
`repr` and raises when one of them does. -/
def reprEntries : Event → Except Exc String
  | [] => .ok ""
  | [(k, v)] => (Value.pyRepr v).map (fun r => "\x27" ++ k ++ "\x27: " ++ r)
  | (k, v) :: rest =>
      match Value.pyRepr v with
      | .error e => .error e
      | .ok r =>
          match reprEntries rest with
          | .error e => .error e
          | .ok t => .ok ("\x27" ++ k ++ "\x27: " ++ r ++ ", " ++ t)

def strEvent (e : Event) : Except Exc String :=
  (reprEntries e).map (fun s => "\x7b" ++ s ++ "\x7d")

/-- Modelled from the spec: the standard template substitution
(Python's percent operator on a mapping, external to this module).
Supports literal text, `%%`, and the mapping-key forms `%(key)s` and
`%(key)r`; a missing key, an unsupported directive, or a value whose
stringification raises makes the substitution raise.  The `fuel`
argument only bounds recursion and starts at the template length. -/
def percentFormatAux (fields : Event) : Nat → List Char → Except Exc String
  | 0, [] => .ok ""
  | 0, _ :: _ => .error .valueError
  | _ + 1, [] => .ok ""
  | fuel + 1, c :: cs =>
      if c = '%' then
        match cs with
        | [] => .error .valueError
        | c1 :: cs1 =>
            if c1 = '%' then
              (percentFormatAux fields fuel cs1).map (fun t => "%" ++ t)
            else if c1 = '(' then
              match readPercentKey cs1 with
              | none => .error .valueError
              | some (key, conv, rest) =>
                  match fields.lookup key with
                  | none => .error (.keyError key)
                  | some v =>
                      match
                        (if conv = 's' then v.pyStr
                         else if conv = 'r' then v.pyRepr
                         else .error .valueError) with
                      | .error e => .error e
                      | .ok s =>
                          (percentFormatAux fields fuel rest).map
                            (fun t => s ++ t)
            else .error .valueError
      else
        (percentFormatAux fields fuel cs).map (fun t => String.singleton c ++ t)
where
  /-- Read the `key)c` part of a `%(key)c` directive. -/
  readPercentKey : List Char → Option (String × Char × List Char)
    | [] => none
    | c :: cs =>
        if c = ')' then
          match cs with
          | [] => none
          | conv :: rest => some ("", conv, rest)
        else
          (readPercentKey cs).map
            (fun p => (String.singleton c ++ p.1, p.2.1, p.2.2))

/-- `fmtString % fmtDict` — tier 0 of `_safeFormat`.  A non-string
template raises `TypeError`, as in Python. -/
def percentFormat (fmtString : Value) (fmtDict : Event) : Except Exc String :=
  match fmtString with
  | .vStr s => percentFormatAux fmtDict (s.toList.length + 1) s.toList
  | _ => .error .typeError

/-- The first fallback diagnostic of `_safeFormat` (its line 267):
`'Invalid format string or unformattable object in log message: %r, %s'
% (fmtString, fmtDict)`.  Raises when `repr` of the template or `str` of
the dictionary raises. -/
def tier1Diag (fmtString : Value) (fmtDict : Event) : Except Exc String :=
  match fmtString.pyRepr with
  | .error e => .error e
  | .ok r =>
      match strEvent fmtDict with
      | .error e => .error e
      | .ok s =>
          .ok ("Invalid format string or unformattable object in log message: "
               ++ r ++ ", " ++ s)

/-- The second fallback diagnostic of `_safeFormat` (its line 270):
`'UNFORMATTABLE OBJECT WRITTEN TO LOG with fmt %r, MESSAGE LOST' %
(fmtString,)`. -/
def tier2Diag (fmtString : Value) : Except Exc String :=
  (fmtString.pyRepr).map
    (fun r => "UNFORMATTABLE OBJECT WRITTEN TO LOG with fmt " ++ r
              ++ ", MESSAGE LOST")

/-- The constant string of the last resort of `_safeFormat` (line 272). -/
def pathologicalText : String :=
  "PATHOLOGICAL ERROR IN BOTH FORMAT STRING AND MESSAGE DETAILS, MESSAGE LOST"

/-- The exception-handling skeleton of `_safeFormat` (lines 261–273),
abstracted over the outcome of the three formatting attempts.  Tier 0
re-raises `KeyboardInterrupt` (lines 263–264); any other tier-0 failure
enters the fallback chain, whose two inner bare `except:` clauses catch
every exception. -/
def safeFormatTiers (t0 t1 t2 : Except Exc String) : Except Exc String :=
  match t0 with
  | .ok text => .ok text
  | .error .keyboardInterrupt => .error .keyboardInterrupt
  | .error _ =>
      match t1 with
      | .ok text => .ok text
      | .error _ =>
          match t2 with
          | .ok text => .ok text
          | .error _ => .ok pathologicalText

/-- `_safeFormat(fmtString, fmtDict)` (lines 250–273). -/
def safeFormat (fmtString : Value) (fmtDict : Event) : Except Exc String :=
  safeFormatTiers (percentFormat fmtString fmtDict)
    (tier1Diag fmtString fmtDict) (tier2Diag fmtString)

/-- `eventDict.get('why') or 'Unhandled Error'` (line 297): the `why`
value when present and truthy — it must then be a string for the later
concatenation, else `TypeError` — and the literal otherwise. -/
def whyHeader (eventDict : Event) : Except Exc String :=
  let w := (eventDict.lookup "why").getD .vNone
  if w.truthy then
    match w with
    | .vStr s => .ok s
    | _ => .error .typeError
  else .ok "Unhandled Error"

/-- `textFromEventDict(eventDict)` (lines 276–306).  Returns
`.ok none` for the "we don't know how to log this" early return,
`.ok (some text)` for an extracted text, and `.error` when the Python
code would raise (e.g. `KeyError` on a missing `message` key). -/
def textFromEventDict (eventDict : Event) : Except Exc (Option String) :=
  match eventDict.lookup "message" with
  | none => .error (.keyError "message")
  | some edm =>
      if edm.truthy then
        match edm with
        | .vList frags =>
            .ok (some (String.intercalate " " (frags.map safe_str)))
        | .vStr s =>
            .ok (some (String.intercalate " "
              (s.toList.map (fun c => safe_str (.fStr (String.singleton c))))))
        | _ => .error .typeError
      else
        match eventDict.lookup "isError" with
        | none => .error (.keyError "isError")
        | some isErr =>
            if isErr.truthy && eventDict.contains "failure" then
              match whyHeader eventDict with
              | .error e => .error e
              | .ok hdr =>
                  match eventDict.lookup "failure" with
                  | some (.vFailure f) =>
                      .ok (some (hdr ++ "\n" ++ f.getTraceback))
                  | some _ => .error .typeError
                  | none => .error (.keyError "failure")
            else
              match eventDict.lookup "format" with
              | some fmt => (safeFormat fmt eventDict).map some
              | none => .ok none

/-- `logging.DEBUG` of the Python standard library. -/
def loggingDEBUG : Int := 10
/-- `logging.INFO` of the Python standard library. -/
def loggingINFO : Int := 20
/-- `logging.WARNING` of the Python standard library. -/
def loggingWARNING : Int := 30
/-- `logging.ERROR` of the Python standard library. -/
def loggingERROR : Int := 40
/-- `logging.CRITICAL` of the Python standard library. -/
def loggingCRITICAL : Int := 50

/-- `pythonLogLevelToNewLogLevelMapping` (lines 540–546): the five-entry
dictionary from standard-library levels to new-style levels, as a lookup
returning `none` exactly when the Python dictionary access would raise
`KeyError`. -/
def pythonLogLevelToNewLogLevelMapping (v : Value) : Option NewLogLevel :=
  if v = .vInt loggingDEBUG then some .debug
  else if v = .vInt loggingINFO then some .info
  else if v = .vInt loggingWARNING then some .warn
  else if v = .vInt loggingERROR then some .error
  else if v = .vInt loggingCRITICAL then some .error
  else none

/-- Lines 561–567 of `publishToNewObserver`: when `log_format` is absent,
extract the text — dropping the event (`.ok none`) when the extractor
returns `None` — and set `log_text` and `log_format`. -/
def addDerivedText (eventDict : Event) : Except Exc (Option Event) :=
  if eventDict.contains "log_format" then .ok (some eventDict)
  else
    match textFromEventDict eventDict with
    | .error e => .error e
    | .ok none => .ok none
    | .ok (some text) =>
        .ok (some ((eventDict.set "log_text" (.vStr text)).set
          "log_format" (.vStr "\x7blog_text\x7d")))

/-- Lines 569–577 of `publishToNewObserver`: derive `log_level` when
absent — from the `logLevel` key through the five-entry table (raising
`KeyError` on an unmapped value), else from the truthiness of `isError`
(raising `KeyError` when `isError` is also absent). -/
def deriveLogLevel (eventDict : Event) : Except Exc Event :=
  if eventDict.contains "log_level" then .ok eventDict
  else
    match eventDict.lookup "logLevel" with
    | some v =>
        match pythonLogLevelToNewLogLevelMapping v with
        | some l => .ok (eventDict.set "log_level" (.vLevel l))
        | none => .error (.keyError "logLevel")
    | none =>
        match eventDict.lookup "isError" with
        | none => .error (.keyError "isError")
        | some isErr =>
            .ok (eventDict.set "log_level"
              (.vLevel (if isErr.truthy then .error else .info)))

/-- Lines 579–580: default `log_namespace` to `"log_legacy"`. -/
def deriveNamespace (eventDict : Event) : Event :=
  if eventDict.contains "log_namespace" then eventDict
  else eventDict.set "log_namespace" (.vStr "log_legacy")

/-- Lines 582–583: copy `system` to `log_system` when the latter is
absent and the former present. -/
def deriveSystem (eventDict : Event) : Event :=
  if eventDict.contains "log_system" then eventDict
  else
    match eventDict.lookup "system" with
    | some v => eventDict.set "log_system" v
    | none => eventDict

/-- `publishToNewObserver(observer, eventDict)` (lines 549–585), with the
final `observer(eventDict)` call made observable: `.ok (some e)` means
the observer is invoked with the normalized event `e`, `.ok none` means
the early return of line 564 (the event is dropped and never reaches the
observer), and `.error` means the Python code raises. -/
def publishToNewObserver (eventDict : Event) : Except Exc (Option Event) :=
  match addDerivedText eventDict with
  | .error e => .error e
  | .ok none => .ok none
  | .ok (some e1) =>
      match deriveLogLevel e1 with
      | .error e => .error e
      | .ok e2 => .ok (some (deriveSystem (deriveNamespace e2)))

end TwistedLog

namespace TwistedLog

theorem lookup_set_self (e : Event) (k : String) (v : Value) :
    (e.set k v).lookup k = some v := by
  induction e with
  | nil => simp [Event.set, Event.lookup]
  | cons p rest ih =>
      obtain ⟨k0, v0⟩ := p
      by_cases h : k0 = k <;> simp [Event.set, Event.lookup, h, ih]

theorem lookup_set_ne (e : Event) {k k' : String} (v : Value) (h : k' ≠ k) :
    (e.set k v).lookup k' = e.lookup k' := by
  have h2 : ¬(k = k') := fun hh => h hh.symm
  induction e with
  | nil => simp [Event.set, Event.lookup, h2]
  | cons p rest ih =>
      obtain ⟨k0, v0⟩ := p
      by_cases h0 : k0 = k
      · subst h0
        simp [Event.set, Event.lookup, h2]
      · simp [Event.set, Event.lookup, h0, ih]

theorem contains_set_self (e : Event) (k : String) (v : Value) :
    (e.set k v).contains k = true := by
  simp [Event.contains, lookup_set_self]

theorem contains_congr {e1 e2 : Event} {k : String}
    (h : e2.lookup k = e1.lookup k) : e2.contains k = e1.contains k := by
  simp [Event.contains, h]

theorem addDerivedText_ok (e e1 : Event) (h : addDerivedText e = .ok (some e1)) :
    e1.contains "log_format" = true ∧
    (∀ k, k ≠ "log_text" → k ≠ "log_format" → e1.lookup k = e.lookup k) ∧
    (e.contains "log_format" = true → e1 = e) := by
  unfold addDerivedText at h
  by_cases hc : e.contains "log_format"
  · rw [if_pos hc] at h
    simp only [Except.ok.injEq, Option.some.injEq] at h
    subst h
    exact ⟨hc, fun k _ _ => rfl, fun _ => rfl⟩
  · rw [if_neg hc] at h
    cases ht : textFromEventDict e with
    | error ex => rw [ht] at h; simp at h
    | ok o =>
        cases o with
        | none => rw [ht] at h; simp at h
        | some text =>
            rw [ht] at h
            simp only [Except.ok.injEq, Option.some.injEq] at h
            subst h
            refine ⟨contains_set_self _ _ _, ?_, ?_⟩
            · intro k hk1 hk2
              rw [lookup_set_ne _ _ hk2, lookup_set_ne _ _ hk1]
            · intro hcc; exact absurd hcc hc

theorem deriveLogLevel_ok (e e2 : Event) (h : deriveLogLevel e = .ok e2) :
    e2.contains "log_level" = true ∧
    (∀ k, k ≠ "log_level" → e2.lookup k = e.lookup k) ∧
    (e.contains "log_level" = true → e2 = e) := by
  unfold deriveLogLevel at h
  by_cases hc : e.contains "log_level"
  · rw [if_pos hc] at h
    simp only [Except.ok.injEq] at h
    subst h
    exact ⟨hc, fun k _ => rfl, fun _ => rfl⟩
  · rw [if_neg hc] at h
    have hset : ∀ l : NewLogLevel, e2 = e.set "log_level" (.vLevel l) →
        e2.contains "log_level" = true ∧
        (∀ k, k ≠ "log_level" → e2.lookup k = e.lookup k) ∧
        (e.contains "log_level" = true → e2 = e) := by
      intro l heq
      subst heq
      refine ⟨contains_set_self _ _ _, ?_, ?_⟩
      · intro k hk; rw [lookup_set_ne _ _ hk]
      · intro hcc; exact absurd hcc hc
    split at h
    · split at h
      · simp only [Except.ok.injEq] at h
        exact hset _ h.symm
      · simp at h
    · split at h
      · simp at h
      · simp only [Except.ok.injEq] at h
        exact hset _ h.symm

theorem deriveNamespace_spec (e : Event) :
    (deriveNamespace e).contains "log_namespace" = true ∧
    (∀ k, k ≠ "log_namespace" → (deriveNamespace e).lookup k = e.lookup k) ∧
    (e.contains "log_namespace" = true → deriveNamespace e = e) := by
  unfold deriveNamespace
  by_cases hc : e.contains "log_namespace"
  · rw [if_pos hc]
    exact ⟨hc, fun k _ => rfl, fun _ => rfl⟩
  · rw [if_neg hc]
    refine ⟨contains_set_self _ _ _, ?_, ?_⟩
    · intro k hk; rw [lookup_set_ne _ _ hk]
    · intro hcc; exact absurd hcc hc

theorem deriveSystem_spec (e : Event) :
    ((deriveSystem e).contains "log_system" = true ∨
      (deriveSystem e).lookup "system" = none) ∧
    (∀ k, k ≠ "log_system" → (deriveSystem e).lookup k = e.lookup k) ∧
    ((e.contains "log_system" = true ∨ e.lookup "system" = none) →
      deriveSystem e = e) := by
  unfold deriveSystem
  by_cases hc : e.contains "log_system"
  · rw [if_pos hc]
    exact ⟨Or.inl hc, fun k _ => rfl, fun _ => rfl⟩
  · rw [if_neg hc]
    cases hs : e.lookup "system" with
    | some v =>
        refine ⟨Or.inl (contains_set_self _ _ _), ?_, ?_⟩
        · intro k hk; rw [lookup_set_ne _ _ hk]
        · rintro (hcc | hn)
          · exact absurd hcc hc
          · simp at hn
    | none => exact ⟨Or.inr hs, fun k _ => rfl, fun _ => rfl⟩

end TwistedLog

namespace TwistedLog

/-- C1: normalization is idempotent — whenever `publishToNewObserver`
dispatches a normalized event `e'`, re-submitting `e'` dispatches the very
same event and changes no key; moreover an event already carrying
`log_format` has its `log_text` and `log_format` keys left unchanged. -/
theorem publishToNewObserver_idempotent (e e' : Event)
    (h : publishToNewObserver e = .ok (some e')) :
    publishToNewObserver e' = .ok (some e') ∧
    (e.contains "log_format" = true →
      e'.lookup "log_text" = e.lookup "log_text" ∧
      e'.lookup "log_format" = e.lookup "log_format") := by
  unfold publishToNewObserver at h
  split at h
  · exact absurd h (by simp)
  · exact absurd h (by simp)
  rename_i e1 hAD
  split at h
  · exact absurd h (by simp)
  rename_i e2 hDL
  simp only [Except.ok.injEq, Option.some.injEq] at h
  obtain ⟨h1f, h1p, h1id⟩ := addDerivedText_ok e e1 hAD
  obtain ⟨h2l, h2p, h2id⟩ := deriveLogLevel_ok e1 e2 hDL
  obtain ⟨h3n, h3p, h3id⟩ := deriveNamespace_spec e2
  obtain ⟨h4s, h4p, h4id⟩ := deriveSystem_spec (deriveNamespace e2)
  subst h
  have f_lf : (deriveSystem (deriveNamespace e2)).contains "log_format" = true := by
    rw [contains_congr (h4p "log_format" (by decide)),
        contains_congr (h3p "log_format" (by decide)),
        contains_congr (h2p "log_format" (by decide))]
    exact h1f
  have f_ll : (deriveSystem (deriveNamespace e2)).contains "log_level" = true := by
    rw [contains_congr (h4p "log_level" (by decide)),
        contains_congr (h3p "log_level" (by decide))]
    exact h2l
  have f_ns : (deriveSystem (deriveNamespace e2)).contains "log_namespace" = true := by
    rw [contains_congr (h4p "log_namespace" (by decide))]
    exact h3n
  have hA : addDerivedText (deriveSystem (deriveNamespace e2)) =
      .ok (some (deriveSystem (deriveNamespace e2))) := by
    unfold addDerivedText; rw [if_pos f_lf]
  have hL : deriveLogLevel (deriveSystem (deriveNamespace e2)) =
      .ok (deriveSystem (deriveNamespace e2)) := by
    unfold deriveLogLevel; rw [if_pos f_ll]
  have hN : deriveNamespace (deriveSystem (deriveNamespace e2)) =
      deriveSystem (deriveNamespace e2) :=
    (deriveNamespace_spec _).2.2 f_ns
  have hS : deriveSystem (deriveSystem (deriveNamespace e2)) =
      deriveSystem (deriveNamespace e2) :=
    (deriveSystem_spec _).2.2 h4s
  refine ⟨?_, ?_⟩
  · unfold publishToNewObserver
    rw [hA]
    simp only
    rw [hL]
    simp only
    rw [hN, hS]
  · intro hcf
    have he1 : e1 = e := h1id hcf
    subst he1
    constructor
    · rw [h4p "log_text" (by decide), h3p "log_text" (by decide),
          h2p "log_text" (by decide)]
    · rw [h4p "log_format" (by decide), h3p "log_format" (by decide),
          h2p "log_format" (by decide)]

/-- A concrete legacy event for the C1 witness. -/
def sampleRawEvent : Event :=
  [("message", Value.vList [Frag.fStr "hi"]), ("isError", Value.vInt 0)]

/-- Its normalization by `publishToNewObserver`. -/
def sampleNormalizedEvent : Event :=
  [("message", Value.vList [Frag.fStr "hi"]), ("isError", Value.vInt 0),
   ("log_text", Value.vStr "hi"),
   ("log_format", Value.vStr "\x7blog_text\x7d"),
   ("log_level", Value.vLevel .info),
   ("log_namespace", Value.vStr "log_legacy")]

/-- Witness for C1: a concrete legacy event, its normalization, and the
fact that re-submitting the normalized event changes nothing. -/
theorem publishToNewObserver_idempotent_witness :
    publishToNewObserver sampleRawEvent = .ok (some sampleNormalizedEvent) ∧
    publishToNewObserver sampleNormalizedEvent =
      .ok (some sampleNormalizedEvent) :=
  ⟨by decide,
   (publishToNewObserver_idempotent sampleRawEvent sampleNormalizedEvent
     (by decide)).1⟩

end TwistedLog

namespace TwistedLog

theorem safeFormatTiers_isOk (t0 t1 t2 : Except Exc String)
    (h : t0 ≠ .error .keyboardInterrupt) :
    ∃ s, safeFormatTiers t0 t1 t2 = .ok s := by
  unfold safeFormatTiers
  cases t0 with
  | ok s => exact ⟨s, rfl⟩
  | error ex =>
      cases t1 with
      | ok s => cases ex <;> first | exact absurd rfl h | exact ⟨s, rfl⟩
      | error ex1 =>
          cases t2 with
          | ok s => cases ex <;> first | exact absurd rfl h | exact ⟨s, rfl⟩
          | error ex2 =>
              cases ex <;> first | exact absurd rfl h
                                 | exact ⟨pathologicalText, rfl⟩

/-- C2: for every template and field mapping — including ones whose
stringification raises — `_safeFormat` returns a string and never raises
except for a deliberate interrupt at tier 0; each fallback tier is
attempted only when the previous one raised, and the last resort is the
fixed constant `pathologicalText`. -/
theorem safeFormat_no_raise :
    (∀ fmtString fmtDict, (∃ s, safeFormat fmtString fmtDict = .ok s) ∨
      safeFormat fmtString fmtDict = .error .keyboardInterrupt) ∧
    (∀ s t1 t2, safeFormatTiers (.ok s) t1 t2 = .ok s) ∧
    (∀ ex s t2, ex ≠ .keyboardInterrupt →
      safeFormatTiers (.error ex) (.ok s) t2 = .ok s) ∧
    (∀ ex ex1 s, ex ≠ .keyboardInterrupt →
      safeFormatTiers (.error ex) (.error ex1) (.ok s) = .ok s) ∧
    (∀ ex ex1 ex2, ex ≠ .keyboardInterrupt →
      safeFormatTiers (.error ex) (.error ex1) (.error ex2) =
        .ok pathologicalText) := by
  refine ⟨?_, ?_, ?_, ?_, ?_⟩
  · intro fs fd
    by_cases h0 : percentFormat fs fd = .error .keyboardInterrupt
    · right
      unfold safeFormat
      rw [h0]
      rfl
    · exact Or.inl (safeFormatTiers_isOk _ _ _ h0)
  · intro s t1 t2; rfl
  · intro ex s t2 h; cases ex <;> first | exact absurd rfl h | rfl
  · intro ex ex1 s h; cases ex <;> first | exact absurd rfl h | rfl
  · intro ex ex1 ex2 h; cases ex <;> first | exact absurd rfl h | rfl

/-- Witness for C2: a field whose stringification raises still yields a
normally returned string, and a failed tier 0 followed by a failed tier 1
falls through to the tier-2 string. -/
theorem safeFormat_no_raise_witness :
    ((∃ s, safeFormat (Value.vStr "%(a)s")
        [("a", Value.vBad "p" (Exc.other "boom"))] = .ok s) ∨
      safeFormat (Value.vStr "%(a)s")
        [("a", Value.vBad "p" (Exc.other "boom"))] =
          .error .keyboardInterrupt) ∧
    safeFormatTiers (.error .typeError) (.error .valueError) (.ok "z") =
      .ok "z" :=
  ⟨safeFormat_no_raise.1 _ _,
   safeFormat_no_raise.2.2.2.1 .typeError .valueError "z" (by decide)⟩

/-- C3 counterexample: at this concrete template and field mapping the
tier-1 diagnostic raises `KeyboardInterrupt`, yet `_safeFormat` catches
it in the bare `except:` of the fallback chain and returns the tier-2
string normally — the interrupt does not propagate. -/
theorem safeFormat_tier1_interrupt_caught :
    percentFormat (Value.vStr "%(missing)s")
      [("k", Value.vBad "ph" Exc.keyboardInterrupt)] =
        .error (.keyError "missing") ∧
    tier1Diag (Value.vStr "%(missing)s")
      [("k", Value.vBad "ph" Exc.keyboardInterrupt)] =
        .error .keyboardInterrupt ∧
    safeFormat (Value.vStr "%(missing)s")
      [("k", Value.vBad "ph" Exc.keyboardInterrupt)] =
        .ok ("UNFORMATTABLE OBJECT WRITTEN TO LOG with fmt \x27%(missing)s\x27, MESSAGE LOST") := by
  decide

/-- C3 amended: a `KeyboardInterrupt` raised during tier-0 template
substitution always propagates out of `_safeFormat`, but one raised while
building the tier-1 or tier-2 diagnostic is caught by the bare `except:`
clauses and the next tier is attempted instead. -/
theorem safeFormat_interrupt_only_tier0 :
    (∀ fmtString fmtDict,
      percentFormat fmtString fmtDict = .error .keyboardInterrupt →
      safeFormat fmtString fmtDict = .error .keyboardInterrupt) ∧
    (∀ ex t2, ex ≠ .keyboardInterrupt →
      ∃ s, safeFormatTiers (.error ex) (.error .keyboardInterrupt) t2 =
        .ok s) ∧
    (∀ ex ex1, ex ≠ .keyboardInterrupt →
      safeFormatTiers (.error ex) (.error ex1) (.error .keyboardInterrupt) =
        .ok pathologicalText) := by
  refine ⟨?_, ?_, ?_⟩
  · intro fs fd h0
    unfold safeFormat
    rw [h0]
    rfl
  · intro ex t2 h
    exact safeFormatTiers_isOk _ _ _ (by simpa using h)
  · intro ex ex1 h; cases ex <;> first | exact absurd rfl h | rfl

/-- Witness for C3 (amended): a concrete tier-0 interrupt propagates, and
interrupts at tiers 1 and 2 are absorbed into the constant last resort. -/
theorem safeFormat_interrupt_only_tier0_witness :
    safeFormat (Value.vStr "%(k)s")
      [("k", Value.vBad "p" Exc.keyboardInterrupt)] =
        .error .keyboardInterrupt ∧
    safeFormatTiers (.error .typeError) (.error .keyboardInterrupt)
      (.error .keyboardInterrupt) = .ok pathologicalText :=
  ⟨safeFormat_interrupt_only_tier0.1 _ _ (by decide),
   safeFormat_interrupt_only_tier0.2.2 .typeError .keyboardInterrupt
     (by decide)⟩

end TwistedLog

namespace TwistedLog

/-- C4: for an event whose `message` is a non-empty tuple,
`textFromEventDict` returns the fragments joined with a single space,
each coerced by the non-raising safe stringification — regardless of any
`format` or `failure` key also present. -/
theorem textFromEventDict_message_precedence (e : Event) (frags : List Frag)
    (h : e.lookup "message" = some (.vList frags)) (hne : frags ≠ []) :
    textFromEventDict e =
      .ok (some (String.intercalate " " (frags.map safe_str))) := by
  have ht : (Value.vList frags).truthy = true := by
    simp [Value.truthy, hne]
  unfold textFromEventDict
  rw [h]
  simp only [ht, if_true]

/-- Witness for C4: `message=["a","b"]` with `format`, `failure`, `why`
and `isError` all present still extracts `"a b"`; and a fragment whose
stringification raises is replaced by its placeholder. -/
theorem textFromEventDict_message_precedence_witness :
    textFromEventDict
      [("message", Value.vList [Frag.fStr "a", Frag.fStr "b"]),
       ("format", Value.vStr "%(x)s"),
       ("failure", Value.vFailure ⟨"tb"⟩),
       ("isError", Value.vInt 1), ("why", Value.vStr "W")] =
        .ok (some "a b") ∧
    textFromEventDict
      [("message", Value.vList [Frag.fStr "a", Frag.fBad "<ph>" .typeError])] =
        .ok (some "a <ph>") :=
  ⟨(textFromEventDict_message_precedence _ [Frag.fStr "a", Frag.fStr "b"]
      (by decide) (by decide)).trans (by decide),
   (textFromEventDict_message_precedence _
      [Frag.fStr "a", Frag.fBad "<ph>" .typeError]
      (by decide) (by decide)).trans (by decide)⟩

/-- C5: with an empty `message`, a truthy `isError` and a `failure`
present, `textFromEventDict` returns the `why` header — the value of
`why`, or the literal "Unhandled Error" when `why` is absent or falsy —
followed by a newline and the rendered traceback, regardless of any
`format` key. -/
theorem textFromEventDict_failure_branch (e : Event) (m isErr : Value)
    (f : Failure) (hdr : String)
    (hm : e.lookup "message" = some m) (hmt : m.truthy = false)
    (hie : e.lookup "isError" = some isErr) (hiet : isErr.truthy = true)
    (hf : e.lookup "failure" = some (.vFailure f))
    (hw : whyHeader e = .ok hdr) :
    textFromEventDict e = .ok (some (hdr ++ "\n" ++ f.getTraceback)) ∧
    (∀ w, e.lookup "why" = some (.vStr w) → w ≠ "" → hdr = w) ∧
    (((e.lookup "why").getD .vNone).truthy = false →
      hdr = "Unhandled Error") := by
  have hcf : e.contains "failure" = true := by
    simp [Event.contains, hf]
  refine ⟨?_, ?_, ?_⟩
  · simp only [textFromEventDict, hm, hmt, Bool.false_eq_true, if_false,
      hie, hiet, hcf, Bool.and_self, if_true, hw, hf]
  · intro w hwl hwne
    unfold whyHeader at hw
    simp [Value.truthy, hwl, hwne] at hw
    first | exact hw | exact hw.symm
  · intro hfalsy
    unfold whyHeader at hw
    simp [hfalsy] at hw
    first | exact hw | exact hw.symm

/-- Witness for C5: empty `message`, `isError=1`, a failure with
traceback "TB", `why="X"` and a `format` key still present extract
`"X\nTB"`; with `why` absent the header is the fixed literal. -/
theorem textFromEventDict_failure_branch_witness :
    textFromEventDict
      [("message", Value.vList []), ("isError", Value.vInt 1),
       ("failure", Value.vFailure ⟨"TB"⟩), ("why", Value.vStr "X"),
       ("format", Value.vStr "zzz")] = .ok (some ("X" ++ "\n" ++ "TB")) ∧
    textFromEventDict
      [("message", Value.vList []), ("isError", Value.vInt 1),
       ("failure", Value.vFailure ⟨"TB"⟩)] =
        .ok (some ("Unhandled Error" ++ "\n" ++ "TB")) :=
  ⟨(textFromEventDict_failure_branch _ (Value.vList []) (Value.vInt 1)
      ⟨"TB"⟩ "X" (by decide) (by decide) (by decide) (by decide)
      (by decide) (by decide)).1,
   (textFromEventDict_failure_branch _ (Value.vList []) (Value.vInt 1)
      ⟨"TB"⟩ "Unhandled Error" (by decide) (by decide) (by decide)
      (by decide) (by decide) (by decide)).1⟩

/-- C6: an event without `log_format`, with an empty `message`, whose
error/failure branch does not apply and which has no `format` key, makes
the extractor return the undefined sentinel and `publishToNewObserver`
return before invoking the observer: the event is dropped and no derived
key is added. -/
theorem publishToNewObserver_drop (e : Event) (m isErr : Value)
    (hlf : e.contains "log_format" = false)
    (hm : e.lookup "message" = some m) (hmt : m.truthy = false)
    (hie : e.lookup "isError" = some isErr)
    (hef : isErr.truthy = false ∨ e.contains "failure" = false)
    (hfmt : e.lookup "format" = none) :
    textFromEventDict e = .ok none ∧ publishToNewObserver e = .ok none := by
  have hand : (isErr.truthy && e.contains "failure") = false := by
    rcases hef with h | h <;> simp [h]
  have ht : textFromEventDict e = .ok none := by
    simp only [textFromEventDict, hm, hmt, Bool.false_eq_true, if_false,
      hie, hand, hfmt]
  have hA : addDerivedText e = .ok none := by
    simp only [addDerivedText, hlf, Bool.false_eq_true, if_false, ht]
  refine ⟨ht, ?_⟩
  simp only [publishToNewObserver, hA]

/-- Witness for C6: the concrete event `{message: (), isError: 0}` is
dropped. -/
theorem publishToNewObserver_drop_witness :
    textFromEventDict [("message", Value.vList []), ("isError", Value.vInt 0)] =
      .ok none ∧
    publishToNewObserver
      [("message", Value.vList []), ("isError", Value.vInt 0)] = .ok none :=
  publishToNewObserver_drop _ (Value.vList []) (Value.vInt 0) (by decide)
    (by decide) (by decide) (by decide) (Or.inl (by decide)) (by decide)

end TwistedLog

namespace TwistedLog

/-- C7: with `log_level` absent, an explicit `logLevel` is mapped through
the fixed five-entry table — debug, info, warn, error, error, the two
highest source severities collapsing onto the same error tier — and
without `logLevel` the severity is error when `isError` is truthy and
info otherwise. -/
theorem deriveLogLevel_table :
    (pythonLogLevelToNewLogLevelMapping (.vInt loggingDEBUG) = some .debug ∧
     pythonLogLevelToNewLogLevelMapping (.vInt loggingINFO) = some .info ∧
     pythonLogLevelToNewLogLevelMapping (.vInt loggingWARNING) = some .warn ∧
     pythonLogLevelToNewLogLevelMapping (.vInt loggingERROR) = some .error ∧
     pythonLogLevelToNewLogLevelMapping (.vInt loggingCRITICAL) =
       some .error) ∧
    (∀ (e : Event) (v : Value) (l : NewLogLevel),
      e.contains "log_level" = false →
      e.lookup "logLevel" = some v →
      pythonLogLevelToNewLogLevelMapping v = some l →
      deriveLogLevel e = .ok (e.set "log_level" (.vLevel l))) ∧
    (∀ (e : Event) (isErr : Value),
      e.contains "log_level" = false →
      e.lookup "logLevel" = none →
      e.lookup "isError" = some isErr →
      deriveLogLevel e = .ok (e.set "log_level"
        (.vLevel (if isErr.truthy then .error else .info)))) := by
  refine ⟨⟨by decide, by decide, by decide, by decide, by decide⟩, ?_, ?_⟩
  · intro e v l hc hv hm
    simp only [deriveLogLevel, hc, Bool.false_eq_true, if_false, hv, hm]
  · intro e isErr hc hv hie
    simp only [deriveLogLevel, hc, Bool.false_eq_true, if_false, hv, hie]

/-- Witness for C7: `logLevel=30` derives the warn tier; a truthy
`isError` without `logLevel` derives the error tier. -/
theorem deriveLogLevel_table_witness :
    deriveLogLevel [("logLevel", Value.vInt 30)] =
      .ok [("logLevel", Value.vInt 30), ("log_level", Value.vLevel .warn)] ∧
    deriveLogLevel [("isError", Value.vInt 1)] =
      .ok [("isError", Value.vInt 1), ("log_level", Value.vLevel .error)] :=
  ⟨(deriveLogLevel_table.2.1 [("logLevel", Value.vInt 30)]
      (Value.vInt 30) NewLogLevel.warn (by decide) (by decide)
      (by decide)).trans (by decide),
   (deriveLogLevel_table.2.2 [("isError", Value.vInt 1)]
      (Value.vInt 1) (by decide) (by decide)
      (by decide)).trans (by decide)⟩

/-- C10 counterexample: this event carries `logLevel=35` — not one of the
five mapped values — and no `log_level`, yet normalization raises
nothing: text extraction drops the event before the severity lookup ever
runs, so `publishToNewObserver` returns the drop sentinel instead of
raising `KeyError`. -/
theorem publishToNewObserver_unmapped_level_dropped :
    Event.contains [("message", Value.vList []), ("isError", Value.vInt 0),
      ("logLevel", Value.vInt 35)] "log_level" = false ∧
    Event.lookup [("message", Value.vList []), ("isError", Value.vInt 0),
      ("logLevel", Value.vInt 35)] "logLevel" = some (Value.vInt 35) ∧
    pythonLogLevelToNewLogLevelMapping (Value.vInt 35) = none ∧
    publishToNewObserver [("message", Value.vList []),
      ("isError", Value.vInt 0), ("logLevel", Value.vInt 35)] =
        .ok none := by
  decide

/-- C10 amended: for every event that reaches the severity step — text
extraction does not drop it, whether because `log_format` is already
present or because a text is extracted — with no `log_level` and a
`logLevel` key, an unmapped value makes `publishToNewObserver` raise
`KeyError` out of the emission path, and a mapped value lets it proceed
raise-free through this step. -/
theorem publishToNewObserver_partial_level (e e1 : Event) (v : Value)
    (hA : addDerivedText e = .ok (some e1))
    (hll : e.contains "log_level" = false)
    (hv : e.lookup "logLevel" = some v) :
    (pythonLogLevelToNewLogLevelMapping v = none →
      publishToNewObserver e = .error (.keyError "logLevel")) ∧
    (∀ l, pythonLogLevelToNewLogLevelMapping v = some l →
      publishToNewObserver e = .ok (some (deriveSystem (deriveNamespace
        (e1.set "log_level" (.vLevel l)))))) := by
  obtain ⟨h1f, h1p, h1id⟩ := addDerivedText_ok e e1 hA
  have hll1 : e1.contains "log_level" = false := by
    rw [contains_congr (h1p "log_level" (by decide) (by decide))]
    exact hll
  have hv1 : e1.lookup "logLevel" = some v := by
    rw [h1p "logLevel" (by decide) (by decide)]
    exact hv
  constructor
  · intro hm
    have hL : deriveLogLevel e1 = .error (.keyError "logLevel") := by
      simp only [deriveLogLevel, hll1, Bool.false_eq_true, if_false, hv1, hm]
    simp only [publishToNewObserver, hA, hL]
  · intro l hm
    have hL : deriveLogLevel e1 = .ok (e1.set "log_level" (.vLevel l)) := by
      simp only [deriveLogLevel, hll1, Bool.false_eq_true, if_false, hv1, hm]
    simp only [publishToNewObserver, hA, hL]

/-- Witness for C10 (amended): the event `{message: ("x",), isError: 0,
logLevel: 35}` is not dropped — a text is extracted — and normalization
raises `KeyError` at the table lookup; the same event with
`logLevel=40` derives the error tier raise-free. -/
theorem publishToNewObserver_partial_level_witness :
    publishToNewObserver [("message", Value.vList [Frag.fStr "x"]),
      ("isError", Value.vInt 0), ("logLevel", Value.vInt 35)] =
        .error (.keyError "logLevel") ∧
    publishToNewObserver [("message", Value.vList [Frag.fStr "x"]),
      ("isError", Value.vInt 0), ("logLevel", Value.vInt 40)] =
      .ok (some [("message", Value.vList [Frag.fStr "x"]),
        ("isError", Value.vInt 0), ("logLevel", Value.vInt 40),
        ("log_text", Value.vStr "x"),
        ("log_format", Value.vStr "\x7blog_text\x7d"),
        ("log_level", Value.vLevel .error),
        ("log_namespace", Value.vStr "log_legacy")]) :=
  ⟨(publishToNewObserver_partial_level
      [("message", Value.vList [Frag.fStr "x"]), ("isError", Value.vInt 0),
        ("logLevel", Value.vInt 35)]
      [("message", Value.vList [Frag.fStr "x"]), ("isError", Value.vInt 0),
        ("logLevel", Value.vInt 35), ("log_text", Value.vStr "x"),
        ("log_format", Value.vStr "\x7blog_text\x7d")]
      (Value.vInt 35) (by decide) (by decide) (by decide)).1 (by decide),
   ((publishToNewObserver_partial_level
      [("message", Value.vList [Frag.fStr "x"]), ("isError", Value.vInt 0),
        ("logLevel", Value.vInt 40)]
      [("message", Value.vList [Frag.fStr "x"]), ("isError", Value.vInt 0),
        ("logLevel", Value.vInt 40), ("log_text", Value.vStr "x"),
        ("log_format", Value.vStr "\x7blog_text\x7d")]
      (Value.vInt 40) (by decide) (by decide) (by decide)).2 .error
      (by decide)).trans (by decide)⟩

end TwistedLog

namespace TwistedLog

/-- One registration in the new-style publisher's global observer list:
the `LegacyLogObserverWrapper` built by `LogPublisher.addObserver`
(lines 165–175), which records the wrapped legacy observer and the
`originator` tag used for scoped listing and removal.  Owner and
observer identities are opaque types compared by equality. -/
structure Registration (Owner Obs : Type) where
  originator : Owner
  legacyObserver : Obs
deriving DecidableEq, Repr

namespace LogPublisher

/-- `LogPublisher.addObserver` (lines 165–175): wrap the observer, tag
the wrapper with its originator and hand it to the global publisher.
Modelled from the spec for the part outside this module: the global
dispatch list appends new registrations at the end. -/
def addObserver {Owner Obs : Type} (self : Owner) (other : Obs)
    (obs : List (Registration Owner Obs)) :
    List (Registration Owner Obs) :=
  obs ++ [⟨self, other⟩]

/-- `LogPublisher.removeObserver` (lines 178–188): scan the global list
and remove the first registration whose originator equals `self` and
whose wrapped observer equals `other`; the loop breaks after the first
removal, and removing a never-registered pair changes nothing. -/
def removeObserver {Owner Obs : Type} [DecidableEq Owner] [DecidableEq Obs]
    (self : Owner) (other : Obs) :
    List (Registration Owner Obs) → List (Registration Owner Obs)
  | [] => []
  | r :: rest =>
      if r.originator = self ∧ r.legacyObserver = other then rest
      else r :: removeObserver self other rest

/-- The `observers` property (lines 156–162): the wrapped legacy
observers whose originator is `self`, in registration order. -/
def observers {Owner Obs : Type} [DecidableEq Owner]
    (self : Owner) (obs : List (Registration Owner Obs)) : List Obs :=
  (obs.filter (fun r => decide (r.originator = self))).map
    Registration.legacyObserver

end LogPublisher

/-- C8: `removeObserver` removes only the first registration matching
both owner and observer identity; registrations by a different owner or
with a different observer are untouched — after adding `(A, f)` and
`(B, g)`, removing `(A, f)` leaves exactly `(B, g)` and `A` then owns no
observer — and removing a never-registered pair is a silent no-op. -/
theorem removeObserver_first_match {Owner Obs : Type}
    [DecidableEq Owner] [DecidableEq Obs] (self : Owner) (other : Obs) :
    (∀ obs : List (Registration Owner Obs),
      (∀ r ∈ obs, ¬(r.originator = self ∧ r.legacyObserver = other)) →
      LogPublisher.removeObserver self other obs = obs) ∧
    (∀ (pre post : List (Registration Owner Obs)),
      (∀ r ∈ pre, ¬(r.originator = self ∧ r.legacyObserver = other)) →
      LogPublisher.removeObserver self other (pre ++ ⟨self, other⟩ :: post) =
        pre ++ post) ∧
    (∀ (ownerB : Owner) (g : Obs), ownerB ≠ self →
      LogPublisher.removeObserver self other
        (LogPublisher.addObserver ownerB g
          (LogPublisher.addObserver self other [])) = [⟨ownerB, g⟩] ∧
      LogPublisher.observers self
        (LogPublisher.removeObserver self other
          (LogPublisher.addObserver ownerB g
            (LogPublisher.addObserver self other []))) = []) := by
  refine ⟨?_, ?_, ?_⟩
  · intro obs hno
    induction obs with
    | nil => rfl
    | cons r rest ih =>
        unfold LogPublisher.removeObserver
        rw [if_neg (hno r (by simp))]
        rw [ih (fun x hx => hno x (by simp [hx]))]
  · intro pre post hno
    induction pre with
    | nil =>
        unfold LogPublisher.removeObserver
        simp
    | cons r rest ih =>
        rw [List.cons_append]
        unfold LogPublisher.removeObserver
        rw [if_neg (hno r (by simp))]
        rw [ih (fun x hx => hno x (by simp [hx]))]
        simp
  · intro ownerB g hBA
    constructor
    · simp [LogPublisher.addObserver, LogPublisher.removeObserver]
    · simp [LogPublisher.addObserver, LogPublisher.removeObserver,
        LogPublisher.observers, hBA]

/-- Witness for C8 at concrete identities: owners 0 and 1, observers 10
and 11; plus a no-op removal of a never-registered pair. -/
theorem removeObserver_first_match_witness :
    LogPublisher.removeObserver 0 10
      (LogPublisher.addObserver 1 11 (LogPublisher.addObserver 0 10
        ([] : List (Registration Nat Nat)))) = [⟨1, 11⟩] ∧
    LogPublisher.observers 0
      (LogPublisher.removeObserver 0 10
        (LogPublisher.addObserver 1 11 (LogPublisher.addObserver 0 10
          ([] : List (Registration Nat Nat))))) = [] ∧
    LogPublisher.removeObserver 0 99
      [(⟨1, 11⟩ : Registration Nat Nat)] = [⟨1, 11⟩] :=
  ⟨((removeObserver_first_match 0 10).2.2 1 11 (by decide)).1,
   ((removeObserver_first_match 0 10).2.2 1 11 (by decide)).2,
   (removeObserver_first_match 0 99).1 [⟨1, 11⟩] (by decide)⟩

end TwistedLog

namespace TwistedLog

/-- The body of `callWithLogger` (lines 93–98):
`callWithContext({"system": lp}, func, ...)` inside the second
try/except.  `lp` is the system label in scope, `logged` the system
labels of the error events already reported by `err(system=lp)`.  A
normal return yields the value; a `KeyboardInterrupt` re-raises; any
other exception appends one more `err(system=lp)` error event and the
function falls through, returning `None`. -/
def callBody {α : Type} (lp : String) (logged : List String)
    (func : String → Except Exc α) : Except Exc (Option α × List String) :=
  match func lp with
  | .ok a => .ok (some a, logged)
  | .error .keyboardInterrupt => .error .keyboardInterrupt
  | .error _ => .ok (none, logged ++ [lp])

/-- `callWithLogger(logger, func, *args, **kw)` (lines 81–98), with its
observable effects explicit.  `lpResult` is the outcome of
`logger.logPrefix()`; `func` receives the system label installed by
`callWithContext`.  The result pairs the returned value (`none` when the
wrapped call raised and was swallowed) with the ordered list of system
labels of the `err(system=lp)` error events logged along the way; a
`KeyboardInterrupt` from `logPrefix` or from the wrapped call
propagates.  A non-interrupt failure of `logPrefix` substitutes the
fixed placeholder label and reports one error event before the wrapped
call proceeds. -/
def callWithLogger {α : Type} (lpResult : Except Exc String)
    (func : String → Except Exc α) : Except Exc (Option α × List String) :=
  match lpResult with
  | .error .keyboardInterrupt => .error .keyboardInterrupt
  | .error _ =>
      callBody "(buggy logPrefix method)" ["(buggy logPrefix method)"] func
  | .ok lp => callBody lp [] func

/-- C9: `callWithLogger` swallows every exception of the wrapped call
except `KeyboardInterrupt` — which always propagates, also out of
`logPrefix` — logging the swallowed exception as an error event first;
and a raising `logPrefix` is replaced by the fixed placeholder label
"(buggy logPrefix method)", that failure being reported as an error
event before the wrapped call proceeds under the placeholder label. -/
theorem callWithLogger_spec {α : Type} :
    (∀ (lp : String) (func : String → Except Exc α) (ex : Exc),
      func lp = .error ex → ex ≠ .keyboardInterrupt →
      callWithLogger (.ok lp) func = .ok (none, [lp])) ∧
    (∀ (lp : String) (func : String → Except Exc α),
      func lp = .error .keyboardInterrupt →
      callWithLogger (.ok lp) func = .error .keyboardInterrupt) ∧
    (∀ func : String → Except Exc α,
      callWithLogger (.error .keyboardInterrupt) func =
        .error .keyboardInterrupt) ∧
    (∀ (ex : Exc) (func : String → Except Exc α) (a : α),
      ex ≠ .keyboardInterrupt → func "(buggy logPrefix method)" = .ok a →
      callWithLogger (.error ex) func =
        .ok (some a, ["(buggy logPrefix method)"])) ∧
    (∀ (ex ex2 : Exc) (func : String → Except Exc α),
      ex ≠ .keyboardInterrupt → ex2 ≠ .keyboardInterrupt →
      func "(buggy logPrefix method)" = .error ex2 →
      callWithLogger (.error ex) func =
        .ok (none, ["(buggy logPrefix method)",
          "(buggy logPrefix method)"])) := by
  refine ⟨?_, ?_, ?_, ?_, ?_⟩
  · intro lp func ex hf hex
    show callBody lp [] func = _
    unfold callBody
    rw [hf]
    cases ex <;> first | exact absurd rfl hex | rfl
  · intro lp func hf
    show callBody lp [] func = _
    unfold callBody
    rw [hf]
  · intro func
    rfl
  · intro ex func a hex hf
    cases ex <;> first
      | exact absurd rfl hex
      | (show callBody "(buggy logPrefix method)"
            ["(buggy logPrefix method)"] func = _
         unfold callBody
         rw [hf])
  · intro ex ex2 func hex hex2 hf
    cases ex <;> first
      | exact absurd rfl hex
      | (show callBody "(buggy logPrefix method)"
            ["(buggy logPrefix method)"] func = _
         unfold callBody
         rw [hf]
         cases ex2 <;> first | exact absurd rfl hex2 | rfl)

/-- Witness for C9: a wrapped call failing with `TypeError` is swallowed
and logged under the context label; a buggy `logPrefix` is replaced by
the placeholder label, reported, and the call still runs. -/
theorem callWithLogger_spec_witness :
    callWithLogger (.ok "sys")
      (fun _ => (.error .typeError : Except Exc Nat)) =
        .ok (none, ["sys"]) ∧
    callWithLogger (.error .typeError)
      (fun _ => (.ok 5 : Except Exc Nat)) =
        .ok (some 5, ["(buggy logPrefix method)"]) :=
  ⟨callWithLogger_spec.1 "sys" (fun _ => .error .typeError) .typeError rfl
     (by decide),
   callWithLogger_spec.2.2.2.1 .typeError (fun _ => .ok 5) 5 (by decide)
     rfl⟩

end TwistedLog
